import Mathlib

/-
Verification of the clinical-filter inheritance engine model.

The definitions below are shallow embeddings of the Python sources under
src/src/main/python/clinicalfilter/variant/ (snv.py, cnv.py).  Python strings
holding genotype fields are embedded as List Char; Python sets of allele
strings are embedded as Finset String; methods that can raise ValueError are
embedded as functions into Except String.  Helpers that live in repository
files absent from src/ (variant.py, inheritance.py) are modelled from the
specification and, where the repository unit tests pin their behaviour, from
those test assertions; each such definition carries a doc comment saying so.
-/

/-- Python str.split with a one-character separator, on a List Char embedding
of the string: splits at every occurrence of the separator, keeping empty
pieces, so that splitting the empty string yields one empty piece. -/
def py_split (sep : Char) : List Char → List (List Char)
  | [] => [[]]
  | c :: rest =>
    match py_split sep rest with
    | [] => [[]]
    | g :: gs => if c = sep then [] :: g :: gs else (c :: g) :: gs

/-- Modelled from the spec: the numeric check helper of the Variant base class
(clinicalfilter/variant/variant.py, a repository file absent from src/), which
convert_genotype asserts on each allele.  Genotype fields hold integer allele
indices, so the check is modelled as a non-empty digit-string test. -/
def is_number (s : List Char) : Bool := !s.isEmpty && s.all Char.isDigit

/-- Embedding of SNV.convert_genotype (snv.py lines 47-80): maps a two-character
genotype field to a count of non-reference alleles.  A single-character
genotype raises; the field is split on a slash, falling back to a pipe when
the slash split does not give exactly two parts (the try/except in the
source); differing alleles give 1, two reference alleles give 0, anything
else gives 2. -/
def SNV.convert_genotype (genotype : List Char) : Except String Nat :=
  if genotype.length = 1 then Except.error "genotype is only a single character"
  else
    let first := py_split '/' genotype
    let parts := if first.length = 2 then first else py_split '|' genotype
    match parts with
    | [allele_1, allele_2] =>
      if is_number allele_1 = false then Except.error "assert failed on allele_1"
      else if is_number allele_2 = false then Except.error "assert failed on allele_2"
      else if allele_1 ≠ allele_2 then Except.ok 1
      else if allele_1 = ['0'] ∧ allele_2 = ['0'] then Except.ok 0
      else Except.ok 2
    | _ => Except.error "genotype did not split into two alleles"

/-- Modelled from the spec: the male gender codes accepted by the Variant base
class (variant.py, absent from src/); the tests drive it with the code M. -/
def is_male (gender : String) : Bool := decide (gender ∈ ["1", "m", "M", "male"])

/-- Modelled from the spec: the female gender codes accepted by the Variant
base class (variant.py, absent from src/); the tests drive it with F. -/
def is_female (gender : String) : Bool := decide (gender ∈ ["2", "f", "F", "female"])

/-- Embedding of SNV.convert_autosomal_genotype_code_to_alleles (snv.py lines
136-149): allele-count codes 0, 1, 2 become the diploid allele sets; any
other code raises. -/
def SNV.convert_autosomal_genotype_code_to_alleles (genotype : Nat)
    (ref_allele alt_allele : String) : Except String (Finset String) :=
  if genotype = 0 then Except.ok {ref_allele, ref_allele}
  else if genotype = 1 then Except.ok {ref_allele, alt_allele}
  else if genotype = 2 then Except.ok {alt_allele, alt_allele}
  else Except.error ("unknown genotype " ++ toString genotype)

/-- Embedding of SNV.convert_allosomal_genotype_code_to_alleles (snv.py lines
151-169): males are haploid (0 gives the reference singleton, 2 the alternate
singleton, 1 raises, any other code raises), females fall through to the
autosomal conversion, and any gender that is neither male nor female raises. -/
def SNV.convert_allosomal_genotype_code_to_alleles (gender : String)
    (genotype : Nat) (ref_allele alt_allele : String) :
    Except String (Finset String) :=
  if is_male gender then
    if genotype = 0 then Except.ok {ref_allele}
    else if genotype = 2 then Except.ok {alt_allele}
    else if genotype = 1 then Except.error "heterozygous X-chromomosome male"
    else Except.error ("unknown genotype " ++ toString genotype)
  else if is_female gender then
    SNV.convert_autosomal_genotype_code_to_alleles genotype ref_allele alt_allele
  else Except.error ("Unknown gender: " ++ gender)

/-- Embedding of SNV.convert_genotype_code_to_alleles (snv.py lines 82-89):
dispatches on the inheritance type; any other inheritance type leaves the
allele set unset, embedded as none. -/
def SNV.convert_genotype_code_to_alleles (inheritance_type gender : String)
    (genotype : Nat) (ref_allele alt_allele : String) :
    Except String (Option (Finset String)) :=
  if inheritance_type = "autosomal" then
    (SNV.convert_autosomal_genotype_code_to_alleles genotype ref_allele alt_allele).map some
  else if inheritance_type = "XChrMale" ∨ inheritance_type = "XChrFemale" then
    (SNV.convert_allosomal_genotype_code_to_alleles gender genotype ref_allele alt_allele).map some
  else Except.ok none

/-- Embedding of SNV.set_reference_genotypes (snv.py lines 91-104): the
reference allele sets (hom_ref, het, hom_alt) per inheritance type; an
unknown inheritance type raises. -/
def SNV.set_reference_genotypes (inheritance_type : String)
    (ref_allele alt_allele : String) :
    Except String (Finset String × Finset String × Finset String) :=
  if inheritance_type = "autosomal" ∨ inheritance_type = "XChrFemale" then
    Except.ok ({ref_allele, ref_allele}, {ref_allele, alt_allele}, {alt_allele, alt_allele})
  else if inheritance_type = "XChrMale" then
    Except.ok ({ref_allele}, (∅ : Finset String), {alt_allele})
  else Except.error ("unknown inheritance type: " ++ inheritance_type)

/-- The per-individual state of a point variant needed by set_genotype: gender,
inheritance type, the two alleles, and the GT entry of the format field
(none when the record has no format attribute). -/
structure SNVState where
  gender : String
  inheritance_type : String
  ref_allele : String
  alt_allele : String
  format_GT : Option (List Char)
deriving DecidableEq

/-- The attributes SNV.set_genotype computes: the allele-count genotype, the
three reference allele sets, and the resolved allele set (none when the
inheritance type is not one the dispatch recognises). -/
structure SNVResolved where
  genotype : Nat
  hom_ref : Finset String
  het : Finset String
  hom_alt : Finset String
  alleles : Option (Finset String)
deriving DecidableEq

/-- Embedding of SNV.set_genotype (snv.py lines 26-36): converts the GT field
(raising when the record has none), then sets the reference genotypes and
resolves the allele set.  Every ValueError of the helpers propagates: nothing
on the point-variant path catches it. -/
def SNV.set_genotype (s : SNVState) : Except String SNVResolved :=
  match s.format_GT with
  | none => Except.error "cannot find a genotype"
  | some gt =>
    match SNV.convert_genotype gt with
    | Except.error e => Except.error e
    | Except.ok g =>
      match SNV.set_reference_genotypes s.inheritance_type s.ref_allele s.alt_allele with
      | Except.error e => Except.error e
      | Except.ok (hr, ht, ha) =>
        match SNV.convert_genotype_code_to_alleles s.inheritance_type s.gender g
            s.ref_allele s.alt_allele with
        | Except.error e => Except.error e
        | Except.ok al => Except.ok ⟨g, hr, ht, ha, al⟩

/-- The chromosome names the CNV genotype setter treats as allosomal
(cnv.py line 30). -/
def allosome_names : List String := ["chrX", "ChrX", "X", "chrY", "ChrY", "Y"]

/-- Modelled from the spec: Variant.set_inheritance_type (variant.py, a
repository file absent from src/).  Non-sex chromosomes are autosomal; a
position inside a pseudoautosomal region behaves autosomally; otherwise the
context is the sex-linked one for the individual gender.  The
pseudoautosomal regions are a class-level constant of the missing file and
are threaded through as the pars parameter. -/
def set_inheritance_type (pars : List (Nat × Nat)) (chrom : String)
    (position : Nat) (gender : String) : String :=
  if chrom ∉ allosome_names then "autosomal"
  else if pars.any (fun p => decide (p.1 < position ∧ position < p.2)) then "autosomal"
  else if chrom ∈ ["chrX", "ChrX", "X"] then
    if is_male gender then "XChrMale"
    else if is_female gender then "XChrFemale"
    else "unknown"
  else
    if is_male gender then "YChrMale"
    else if is_female gender then "YChrFemale"
    else "unknown"

/-- The per-individual state of a structural variant: locus, END annotation,
gender, currently stored inheritance context, alternate allele tag, the
derived genotype, the gene annotation, and the keys present in the info
field (used by the filtering dispatch). -/
structure CNVState where
  chrom : String
  position : Nat
  info_END : Nat
  gender : String
  inheritance_type : String
  alt_allele : String
  genotype : String
  gene : Option String
  info_keys : List String
deriving DecidableEq

/-- The allosomal context fix-up at the top of CNV.set_genotype (cnv.py lines
27-48), factored out by name.  For a sex chromosome the inheritance context
is recomputed with the position temporarily reassigned to the END
annotation, the position is then restored, and when the two contexts
disagree and the stored start context is not autosomal the context is
recomputed at the restored start position. -/
def CNV.allosomal_fixup (pars : List (Nat × Nat)) (s0 : CNVState) : CNVState :=
  if s0.chrom ∈ allosome_names then
    let cnv_start := s0.position
    let cnv_start_inh := s0.inheritance_type
    let sEnd1 := { s0 with position := s0.info_END }
    let sEnd2 := { sEnd1 with inheritance_type :=
      (set_inheritance_type pars sEnd1.chrom sEnd1.position sEnd1.gender) }
    let cnv_end_inh := sEnd2.inheritance_type
    let sRestored := { sEnd2 with position := cnv_start }
    if cnv_start_inh ≠ cnv_end_inh then
      if cnv_start_inh ≠ "autosomal" then
        { sRestored with inheritance_type :=
          (set_inheritance_type pars sRestored.chrom sRestored.position sRestored.gender) }
      else sRestored
    else sRestored
  else s0

/-- Embedding of CNV.set_genotype (cnv.py lines 23-58): the allosomal context
fix-up runs first; a final context of the female Y chromosome raises, then
the genotype is derived from the alternate-allele tag, raising on an
unknown tag. -/
def CNV.set_genotype (pars : List (Nat × Nat)) (s0 : CNVState) :
    Except String CNVState :=
  let s1 := CNV.allosomal_fixup pars s0
  if s1.inheritance_type = "YChrFemale" then
    Except.error "cannot have CNV on female Y chromosome"
  else if s1.alt_allele = "<DUP>" then Except.ok { s1 with genotype := "DUP" }
  else if s1.alt_allele = "<DEL>" then Except.ok { s1 with genotype := "DEL" }
  else Except.error "unknown CNV allele code"

/-- Embedding of CNV.set_default_genotype (cnv.py lines 60-64). -/
def CNV.set_default_genotype (s : CNVState) : CNVState :=
  { s with genotype := "REF" }

/-- Embedding of the class-level constant CNV.ref_genotypes (cnv.py line 14). -/
def CNV.ref_genotypes : Finset String := {"REF"}

/-- Embedding of the class-level constant CNV.alt_genotypes (cnv.py line 15). -/
def CNV.alt_genotypes : Finset String := {"DEL", "DUP"}

/-- Embedding of CNV.is_het (cnv.py lines 176-178). -/
def CNV.is_het (genotype : String) : Bool := decide (genotype ∈ CNV.alt_genotypes)

/-- Embedding of CNV.is_hom_alt (cnv.py lines 180-182). -/
def CNV.is_hom_alt (genotype : String) : Bool := decide (genotype ∈ CNV.alt_genotypes)

/-- Embedding of CNV.is_hom_ref (cnv.py lines 184-186). -/
def CNV.is_hom_ref (genotype : String) : Bool := decide (genotype ∈ CNV.ref_genotypes)

/-- Embedding of CNV.is_not_ref (cnv.py lines 188-190). -/
def CNV.is_not_ref (genotype : String) : Bool := decide (genotype ∈ CNV.alt_genotypes)

/-- Embedding of CNV.is_not_alt (cnv.py lines 192-194). -/
def CNV.is_not_alt (genotype : String) : Bool := decide (genotype ∈ CNV.ref_genotypes)

/-- Embedding of CNV.passes_filters (cnv.py lines 140-174): the genotype setter
runs first and any ValueError it raises is caught and converted into a
False result; otherwise the record is dispatched on its info keys to the
auxiliary quality filters.  Those filter classes are outside the core per
the spec and are passed in as the acgh and breakdancer parameters; the
exome-only branch returns False in the source regardless of its filter. -/
def CNV.passes_filters (pars : List (Nat × Nat))
    (acgh breakdancer : CNVState → Bool) (s : CNVState) : Bool :=
  match CNV.set_genotype pars s with
  | Except.error _ => false
  | Except.ok s1 =>
    if "CONVEX" ∈ s1.info_keys ∧ "CNSOLIDATE" ∉ s1.info_keys then false
    else if "CNSOLIDATE" ∈ s1.info_keys then acgh s1
    else if "BREAKDANCER" ∈ s1.info_keys then breakdancer s1
    else false

/-- Modelled from the spec: Variant.get_range (variant.py, absent from src/);
for a structural variant the range runs from the stored position to the END
annotation. -/
def CNV.get_range (s : CNVState) : Nat × Nat := (s.position, s.info_END)

/-- Embedding of CNV.get_genes (cnv.py lines 124-138): a missing gene
annotation gives no genes, a comma-separated annotation is split on the
commas (the split embedded through py_split on the character list), and
anything else is a single gene. -/
def CNV.get_genes (gene : Option String) : List String :=
  match gene with
  | none => []
  | some g =>
    if g.toList.contains ',' then (py_split ',' g.toList).map List.asString
    else [g]

/-- Dictionary lookup of a gene in the known-genes table, embedding the
membership test and indexing that fix_gene_IDs performs on the Python dict;
the table maps a gene symbol to its panel start and end coordinates. -/
def gene_lookup (gene : String) : List (String × Nat × Nat) → Option (Nat × Nat)
  | [] => none
  | (k, gs, ge) :: rest => if k = gene then some (gs, ge) else gene_lookup gene rest

/-- The genes the loop body of CNV.fix_gene_IDs (cnv.py lines 85-99) keeps: a
gene absent from the known-genes table (or any gene when there is no table)
is kept as is, and a known gene is kept exactly when its panel coordinates
overlap the variant range. -/
def CNV.surviving_genes (known_genes : Option (List (String × Nat × Nat)))
    (s : CNVState) : List String :=
  (CNV.get_genes s.gene).filter (fun gene =>
    match known_genes with
    | none => true
    | some kg =>
      match gene_lookup gene kg with
      | none => true
      | some (gene_start, gene_end) =>
        decide ((CNV.get_range s).1 ≤ gene_end ∧ gene_start ≤ (CNV.get_range s).2))

/-- Embedding of CNV.fix_gene_IDs (cnv.py lines 74-102): the kept genes are
joined with commas and written back, but only when at least one gene was
kept; an empty kept list leaves the record untouched. -/
def CNV.fix_gene_IDs (known_genes : Option (List (String × Nat × Nat)))
    (s : CNVState) : CNVState :=
  let genes := CNV.surviving_genes known_genes s
  if genes.length > 0 then { s with gene := some (String.intercalate "," genes) }
  else s

/-- The two per-gene aggregation lists of the inheritance engine (spec section
4.3): candidate single hits and deferred compound-heterozygous partners.
Each entry records the variant together with its check tag and mode, the
three-element list the source appends. -/
structure InheritanceLists (α : Type) where
  candidates : List (α × String × String)
  compound_hets : List (α × String × String)
deriving DecidableEq

/-- Modelled from the spec: Inheritance.add_variant_to_appropriate_list of
clinicalfilter/inheritance.py, a repository file absent from src/.  Its
routing is pinned by the assertions of
src/src/test/python/clinicalfilter/test_inheritance.py lines 139-176, which
this definition reproduces: a compound_het or hemizygous check appends the
entry to the compound_hets list, a single_variant check appends it to the
candidates list, and any other check changes neither list.  (The spec
section 4.3 instead routes hemizygous entries to the candidates list, which
those test assertions contradict.) -/
def add_variant_to_appropriate_list {α : Type} (st : InheritanceLists α)
    (variant : α) (check inheritance : String) : InheritanceLists α :=
  if check = "compound_het" ∨ check = "hemizygous" then
    { st with compound_hets := st.compound_hets ++ [(variant, check, inheritance)] }
  else if check = "single_variant" then
    { st with candidates := st.candidates ++ [(variant, check, inheritance)] }
  else st

/-- Zygosity of one individual at one locus, as the engine reads it off a
point variant. -/
inductive Zygosity
  | HomRef
  | Het
  | HomAlt
deriving DecidableEq

/-- Modelled from the spec: the male branch of Allosomal.check_homozygous of
clinicalfilter/inheritance.py, a repository file absent from src/, for a
male child homozygous-alternate on the X chromosome with both parental
genotypes present.  Its outcomes are pinned by the assertions of
src/src/test/python/clinicalfilter/test_allosomal_inheritance.py lines
250-285: a mode other than X-linked dominant or Hemizygous raises; a
homozygous-reference mother is a de novo single variant; a heterozygous
unaffected mother or a homozygous-alternate affected mother is an inherited
single variant; every other combination is rejected.  (The spec section 4.4
row instead accepts a heterozygous mother regardless of her affected
status, which the test assertions at lines 267-270 contradict.)  The result
pairs the check tag with the logged reason string. -/
def Allosomal.check_homozygous_male (inheritance : String) (mom : Zygosity)
    (mother_affected : Bool) : Except String (String × String) :=
  if ¬(inheritance = "X-linked dominant" ∨ inheritance = "Hemizygous") then
    Except.error ("unknown inheritance type: " ++ inheritance)
  else if mom = Zygosity.HomRef then
    Except.ok ("single_variant", "male X chrom de novo")
  else if (mom = Zygosity.Het ∧ mother_affected = false)
      ∨ (mom = Zygosity.HomAlt ∧ mother_affected = true) then
    Except.ok ("single_variant",
      "male X chrom inherited from het mother or hom affected mother")
  else
    Except.ok ("nothing", "variant not compatible with being causal")

/-- Modelled from the spec: CNVInheritance.passes_intragenic_dup of
clinicalfilter/inheritance.py, a repository file absent from src/ (spec
section 4.5, second bullet): only a duplication under the Monoallelic or
X-linked dominant mode can pass, and it passes exactly when its span is
strictly contained within the gene or protrudes past exactly one of the two
gene boundaries; a duplication covering the whole gene, or matching its
span exactly, fails.  All assertions of
src/src/test/python/clinicalfilter/test_cnv_inheritance.py lines 318-366
hold of this definition. -/
def CNVInheritance.passes_intragenic_dup (cnv_start cnv_end : Nat)
    (genotype inheritance : String) (gene_start gene_end : Nat) : Bool :=
  if ¬(inheritance = "Monoallelic" ∨ inheritance = "X-linked dominant") then false
  else if genotype ≠ "DUP" then false
  else
    decide (gene_start < cnv_start ∧ cnv_end < gene_end)
      || (decide (cnv_start < gene_start) != decide (gene_end < cnv_end))

/-- Modelled from the spec: CNVInheritance.has_enough_overlap of
clinicalfilter/inheritance.py, a repository file absent from src/ (spec
section 4.5, fourth bullet): reciprocal overlap of at least one percent,
required independently of the length of each of the two intervals.
Interval lengths and the overlap length count positions inclusively (the
plus one), which is what the assertions of
src/src/test/python/clinicalfilter/test_cnv_inheritance.py lines 398-432
require.  The floating-point ratio comparisons of the source are modelled
exactly by cross-multiplication, the lengths of genomic intervals being
positive. -/
def CNVInheritance.has_enough_overlap (start_a end_a start_b end_b : Int) : Bool :=
  let overlap_start := max start_a start_b
  let overlap_end := min end_a end_b
  let distance := overlap_end - overlap_start + 1
  let size_a := end_a - start_a + 1
  let size_b := end_b - start_b + 1
  decide (size_a ≤ 100 * distance) && decide (size_b ≤ 100 * distance)

/-- A concrete structural variant on the female Y chromosome, the invalid
combination the genotype setter rejects. -/
def cnvFemaleY : CNVState :=
  { chrom := "Y", position := 15000000, info_END := 16000000, gender := "2",
    inheritance_type := "YChrFemale", alt_allele := "<DUP>", genotype := "",
    gene := none, info_keys := ["CNSOLIDATE"] }

/-- A concrete autosomal structural variant carrying an unrecognised
alternate-allele tag. -/
def cnvBadAllele : CNVState :=
  { chrom := "1", position := 15000000, info_END := 16000000, gender := "F",
    inheritance_type := "autosomal", alt_allele := "<INS>", genotype := "",
    gene := none, info_keys := ["CNSOLIDATE"] }

/-- A concrete point variant with a heterozygous call on a male X chromosome,
the invalid combination whose resolution error nothing catches. -/
def snvHetMaleX : SNVState :=
  { gender := "M", inheritance_type := "XChrMale", ref_allele := "A",
    alt_allele := "G", format_GT := some ['0', '/', '1'] }

/-- The single pseudoautosomal region used by the boundary-crossing example. -/
def parsExample : List (Nat × Nat) := [(1, 1000000)]

/-- A concrete structural variant on the X chromosome whose start lies inside
the pseudoautosomal region of parsExample and whose END annotation lies
outside it, so the contexts at its two ends disagree. -/
def cnvPARCross : CNVState :=
  { chrom := "X", position := 500000, info_END := 5000000, gender := "M",
    inheritance_type := "autosomal", alt_allele := "<DEL>", genotype := "",
    gene := none, info_keys := [] }

/-- The state cnvPARCross reaches after its genotype is set: the context has
been reclassified to the allosomal one of its END and the deletion genotype
has been derived. -/
def cnvPARCrossResult : CNVState :=
  { cnvPARCross with inheritance_type := "XChrMale", genotype := "DEL" }

/-- A concrete autosomal duplication call used to exercise a successful run of
the genotype setter. -/
def cnvAutosomalDup : CNVState :=
  { chrom := "1", position := 15000000, info_END := 16000000, gender := "F",
    inheritance_type := "autosomal", alt_allele := "<DUP>", genotype := "",
    gene := none, info_keys := [] }

/-- A concrete structural variant annotated with two genes, both in the
known-genes panel and both with panel coordinates disjoint from its range. -/
def cnvStaleGenes : CNVState :=
  { chrom := "1", position := 15000000, info_END := 16000000, gender := "F",
    inheritance_type := "autosomal", alt_allele := "<DUP>", genotype := "DUP",
    gene := some "AAA,BBB", info_keys := [] }

/-- A known-genes panel whose two entries both lie outside the range of
cnvStaleGenes. -/
def panelDisjoint : List (String × Nat × Nat) :=
  [("AAA", 1000, 2000), ("BBB", 20000000, 21000000)]

theorem py_split_of_not_mem (sep : Char) (l : List Char) (h : sep ∉ l) :
    py_split sep l = [l] := by
  induction l with
  | nil => rfl
  | cons c t ih =>
    have hc : ¬(c = sep) := fun e => h (by simp [e])
    have ht : sep ∉ t := fun m => h (List.mem_cons_of_mem _ m)
    simp [py_split, ih ht, hc]

theorem py_split_append_sep (sep : Char) (a1 a2 : List Char)
    (h1 : sep ∉ a1) (h2 : sep ∉ a2) :
    py_split sep (a1 ++ sep :: a2) = [a1, a2] := by
  induction a1 with
  | nil =>
    simp [py_split, py_split_of_not_mem sep a2 h2]
  | cons c t ih =>
    have hc : ¬(c = sep) := fun e => h1 (by simp [e])
    have ht : sep ∉ t := fun m => h1 (List.mem_cons_of_mem _ m)
    simp only [List.cons_append, py_split, List.append_eq]
    rw [ih ht]
    simp [hc]

theorem not_mem_of_all_digit (sep : Char) (l : List Char)
    (hd : l.all Char.isDigit = true) (hs : sep.isDigit = false) : sep ∉ l := by
  intro hm
  have h := List.all_eq_true.mp hd sep hm
  rw [hs] at h
  exact Bool.noConfusion h

theorem is_number_of_digits (l : List Char) (hne : l ≠ [])
    (hd : l.all Char.isDigit = true) : is_number l = true := by
  cases l with
  | nil => exact absurd rfl hne
  | cons c t => simp [is_number, List.isEmpty, hd]

/-- C3: for every two-allele genotype field, with the alleles joined by a slash
or a pipe, convert_genotype returns the non-reference-allele count 0 when
both alleles are the reference string 0, the count 1 whenever the two
alleles differ, and the count 2 when they are equal and non-reference; a
single-character genotype field is a validation failure. -/
theorem convert_genotype_two_allele_spec (a1 a2 : List Char) (sep c : Char)
    (h1 : a1 ≠ [] ∧ a1.all Char.isDigit = true)
    (h2 : a2 ≠ [] ∧ a2.all Char.isDigit = true)
    (hsep : sep = '/' ∨ sep = '|') :
    SNV.convert_genotype (a1 ++ sep :: a2)
      = Except.ok (if a1 = a2 then (if a1 = ['0'] then 0 else 2) else 1)
    ∧ SNV.convert_genotype [c]
      = Except.error "genotype is only a single character" := by
  obtain ⟨h1ne, h1d⟩ := h1
  obtain ⟨h2ne, h2d⟩ := h2
  have hslash : ('/' : Char).isDigit = false := by decide
  have hpipe : ('|' : Char).isDigit = false := by decide
  constructor
  · have hlen : ¬((a1 ++ sep :: a2).length = 1) := by
      cases a1 with
      | nil => exact absurd rfl h1ne
      | cons x t => simp [List.length_append]
    have hn1 : is_number a1 = true := is_number_of_digits a1 h1ne h1d
    have hn2 : is_number a2 = true := is_number_of_digits a2 h2ne h2d
    rcases hsep with rfl | rfl
    · have hm1 : ('/' : Char) ∉ a1 := not_mem_of_all_digit _ _ h1d hslash
      have hm2 : ('/' : Char) ∉ a2 := not_mem_of_all_digit _ _ h2d hslash
      rw [SNV.convert_genotype, if_neg hlen]
      simp only [py_split_append_sep _ _ _ hm1 hm2]
      simp [hn1, hn2]
      by_cases heq : a1 = a2
      · subst heq
        by_cases h0 : a1 = ['0'] <;> simp [h0]
      · simp [heq]
    · have hm1 : ('|' : Char) ∉ a1 := not_mem_of_all_digit _ _ h1d hpipe
      have hm2 : ('|' : Char) ∉ a2 := not_mem_of_all_digit _ _ h2d hpipe
      have hwhole : ('/' : Char) ∉ (a1 ++ '|' :: a2) := by
        intro hm
        rcases List.mem_append.mp hm with hma | hmb
        · exact not_mem_of_all_digit _ _ h1d hslash hma
        · rcases List.mem_cons.mp hmb with he | hmc
          · exact absurd he (by decide)
          · exact not_mem_of_all_digit _ _ h2d hslash hmc
      rw [SNV.convert_genotype, if_neg hlen]
      simp only [py_split_of_not_mem _ _ hwhole,
        py_split_append_sep _ _ _ hm1 hm2]
      simp [hn1, hn2]
      by_cases heq : a1 = a2
      · subst heq
        by_cases h0 : a1 = ['0'] <;> simp [h0]
      · simp [heq]
  · simp [SNV.convert_genotype]

/-- Witness for C3 at the genotype field 0/1 and the single character x. -/
theorem convert_genotype_two_allele_spec_witness :
    SNV.convert_genotype ['0', '/', '1'] = Except.ok 1
    ∧ SNV.convert_genotype ['x']
      = Except.error "genotype is only a single character" := by
  have h := convert_genotype_two_allele_spec ['0'] ['1'] '/' 'x'
    ⟨by decide, by decide⟩ ⟨by decide, by decide⟩ (Or.inl rfl)
  refine ⟨?_, h.2⟩
  have h1 : SNV.convert_genotype ['0', '/', '1']
      = Except.ok (if (['0'] : List Char) = ['1']
          then (if (['0'] : List Char) = ['0'] then 0 else 2) else 1) := h.1
  rw [h1]
  rfl

/-- C4: resolving alleles in the male X-linked context, allele count 0 yields
the haploid reference singleton and count 2 the alternate singleton; count
1 is a validation failure, as is any unrecognised count, and so is a gender
that is neither male nor female. -/
theorem allosomal_male_allele_resolution (gender gen2 ref_allele alt_allele : String)
    (g : Nat) (hm : is_male gender = true)
    (hg : g ≠ 0 ∧ g ≠ 1 ∧ g ≠ 2)
    (hu1 : is_male gen2 = false) (hu2 : is_female gen2 = false) :
    SNV.convert_allosomal_genotype_code_to_alleles gender 0 ref_allele alt_allele
      = Except.ok {ref_allele}
    ∧ SNV.convert_allosomal_genotype_code_to_alleles gender 2 ref_allele alt_allele
      = Except.ok {alt_allele}
    ∧ SNV.convert_allosomal_genotype_code_to_alleles gender 1 ref_allele alt_allele
      = Except.error "heterozygous X-chromomosome male"
    ∧ (∃ e, SNV.convert_allosomal_genotype_code_to_alleles gender g ref_allele alt_allele
        = Except.error e)
    ∧ (∃ e, SNV.convert_allosomal_genotype_code_to_alleles gen2 g ref_allele alt_allele
        = Except.error e) := by
  obtain ⟨hg0, hg1, hg2⟩ := hg
  refine ⟨?_, ?_, ?_, ?_, ?_⟩
  · simp [SNV.convert_allosomal_genotype_code_to_alleles, hm]
  · simp [SNV.convert_allosomal_genotype_code_to_alleles, hm]
  · simp [SNV.convert_allosomal_genotype_code_to_alleles, hm]
  · refine ⟨"unknown genotype " ++ toString g, ?_⟩
    simp [SNV.convert_allosomal_genotype_code_to_alleles, hm, hg0, hg1, hg2]
  · refine ⟨"Unknown gender: " ++ gen2, ?_⟩
    simp [SNV.convert_allosomal_genotype_code_to_alleles, hu1, hu2]

/-- Witness for C4 at the male code M, the unknown gender code Q, the allele
strings A and G, and the unrecognised count 7. -/
theorem allosomal_male_allele_resolution_witness :
    SNV.convert_allosomal_genotype_code_to_alleles "M" 0 "A" "G"
      = Except.ok {"A"}
    ∧ SNV.convert_allosomal_genotype_code_to_alleles "M" 1 "A" "G"
      = Except.error "heterozygous X-chromomosome male"
    ∧ (∃ e, SNV.convert_allosomal_genotype_code_to_alleles "Q" 7 "A" "G"
        = Except.error e) := by
  have h := allosomal_male_allele_resolution "M" "Q" "A" "G" 7 (by decide)
    ⟨by decide, by decide, by decide⟩ (by decide) (by decide)
  exact ⟨h.1, h.2.2.1, h.2.2.2.2⟩

/-- C5: the error-handling asymmetry between the two variant kinds.  The
structural-variant genotype setter raises on a female-Y context and on an
unrecognised allele code, but the structural-variant filtering boundary
catches any such error and silently filters the call out (returns false)
whatever the downstream quality filters would say; for a point variant the
equivalent genotype-resolution failure is the result of set_genotype
itself, which nothing on that path catches. -/
theorem cnv_snv_error_asymmetry (pars : List (Nat × Nat))
    (acgh breakdancer : CNVState → Bool) (s : CNVState) (e : String)
    (herr : CNV.set_genotype pars s = Except.error e) :
    CNV.passes_filters pars acgh breakdancer s = false
    ∧ CNV.set_genotype [] cnvFemaleY
      = Except.error "cannot have CNV on female Y chromosome"
    ∧ CNV.passes_filters [] acgh breakdancer cnvFemaleY = false
    ∧ CNV.set_genotype [] cnvBadAllele = Except.error "unknown CNV allele code"
    ∧ CNV.passes_filters [] acgh breakdancer cnvBadAllele = false
    ∧ SNV.set_genotype snvHetMaleX
      = Except.error "heterozygous X-chromomosome male" := by
  have hfem : CNV.set_genotype [] cnvFemaleY
      = Except.error "cannot have CNV on female Y chromosome" := by rfl
  have hbad : CNV.set_genotype [] cnvBadAllele
      = Except.error "unknown CNV allele code" := by rfl
  refine ⟨?_, hfem, ?_, hbad, ?_, ?_⟩
  · rw [CNV.passes_filters, herr]
  · rw [CNV.passes_filters, hfem]
  · rw [CNV.passes_filters, hbad]
  · rfl

/-- Witness for C5 at the concrete invalid structural and point variants, with
quality filters that would accept everything. -/
theorem cnv_snv_error_asymmetry_witness :
    CNV.passes_filters [] (fun _ => true) (fun _ => true) cnvBadAllele = false
    ∧ CNV.passes_filters [] (fun _ => true) (fun _ => true) cnvFemaleY = false
    ∧ SNV.set_genotype snvHetMaleX
      = Except.error "heterozygous X-chromomosome male" := by
  have h := cnv_snv_error_asymmetry [] (fun _ => true) (fun _ => true)
    cnvBadAllele "unknown CNV allele code" (by rfl)
  exact ⟨h.1, h.2.2.1, h.2.2.2.2.2⟩

theorem allosomal_fixup_position (pars : List (Nat × Nat)) (s : CNVState) :
    (CNV.allosomal_fixup pars s).position = s.position := by
  rw [CNV.allosomal_fixup]
  split
  · simp only
    split
    · split <;> rfl
    · rfl
  · rfl

theorem allosomal_fixup_genotype (pars : List (Nat × Nat)) (s : CNVState) :
    (CNV.allosomal_fixup pars s).genotype = s.genotype := by
  rw [CNV.allosomal_fixup]
  split
  · simp only
    split
    · split <;> rfl
    · rfl
  · rfl

theorem allosomal_fixup_inheritance_type (pars : List (Nat × Nat)) (s : CNVState)
    (hchrom : s.chrom ∈ allosome_names) :
    (CNV.allosomal_fixup pars s).inheritance_type =
      if s.inheritance_type ≠ set_inheritance_type pars s.chrom s.info_END s.gender then
        if s.inheritance_type ≠ "autosomal" then
          set_inheritance_type pars s.chrom s.position s.gender
        else set_inheritance_type pars s.chrom s.info_END s.gender
      else set_inheritance_type pars s.chrom s.info_END s.gender := by
  rw [CNV.allosomal_fixup, if_pos hchrom]
  simp only
  by_cases hc2 : s.inheritance_type
      ≠ set_inheritance_type pars s.chrom s.info_END s.gender
  · rw [if_pos hc2, if_pos hc2]
    by_cases hc3 : s.inheritance_type ≠ "autosomal"
    · rw [if_pos hc3, if_pos hc3]
    · rw [if_neg hc3, if_neg hc3]
  · rw [if_neg hc2, if_neg hc2]

theorem set_genotype_ok_fields (pars : List (Nat × Nat)) (s s2 : CNVState)
    (hok : CNV.set_genotype pars s = Except.ok s2) :
    s2.position = s.position
    ∧ s2.inheritance_type = (CNV.allosomal_fixup pars s).inheritance_type
    ∧ (s2.genotype = "DEL" ∨ s2.genotype = "DUP") := by
  simp only [CNV.set_genotype] at hok
  split at hok
  · exact Except.noConfusion hok
  · split at hok
    · injection hok with h
      subst h
      exact ⟨allosomal_fixup_position pars s, rfl, Or.inr rfl⟩
    · split at hok
      · injection hok with h
        subst h
        exact ⟨allosomal_fixup_position pars s, rfl, Or.inl rfl⟩
      · exact Except.noConfusion hok

/-- C6: for a structural variant on a sex chromosome whose stored context is
the one resolved at its start position, a successful run of the genotype
setter leaves the stored start position unchanged, and whenever the
contexts resolved at the start position and at the END-annotation position
differ, the final stored context is one of those two and is never the
autosomal one. -/
theorem cnv_allosomal_context_resolution (pars : List (Nat × Nat)) (s s2 : CNVState)
    (hchrom : s.chrom ∈ allosome_names)
    (hstored : s.inheritance_type
      = set_inheritance_type pars s.chrom s.position s.gender)
    (hok : CNV.set_genotype pars s = Except.ok s2) :
    s2.position = s.position
    ∧ (set_inheritance_type pars s.chrom s.position s.gender
        ≠ set_inheritance_type pars s.chrom s.info_END s.gender →
      s2.inheritance_type ≠ "autosomal"
      ∧ (s2.inheritance_type = set_inheritance_type pars s.chrom s.position s.gender
        ∨ s2.inheritance_type
          = set_inheritance_type pars s.chrom s.info_END s.gender)) := by
  obtain ⟨hpos, hinh, _⟩ := set_genotype_ok_fields pars s s2 hok
  refine ⟨hpos, fun hne => ?_⟩
  rw [hinh, allosomal_fixup_inheritance_type pars s hchrom]
  have hc2 : s.inheritance_type
      ≠ set_inheritance_type pars s.chrom s.info_END s.gender := by
    rw [hstored]
    exact hne
  rw [if_pos hc2]
  by_cases hc3 : s.inheritance_type ≠ "autosomal"
  · rw [if_pos hc3]
    refine ⟨?_, Or.inl rfl⟩
    intro hA
    exact hc3 (hstored.trans hA)
  · rw [if_neg hc3]
    refine ⟨?_, Or.inr rfl⟩
    have hauto : s.inheritance_type = "autosomal" := not_ne_iff.mp hc3
    intro hB
    exact hc2 (hauto.trans hB.symm)

/-- Witness for C6 at a concrete deletion crossing the pseudoautosomal
boundary of parsExample. -/
theorem cnv_allosomal_context_resolution_witness :
    cnvPARCrossResult.position = cnvPARCross.position
    ∧ cnvPARCrossResult.inheritance_type ≠ "autosomal" := by
  have h := cnv_allosomal_context_resolution parsExample cnvPARCross
    cnvPARCrossResult (by decide) (by decide) (by rfl)
  have hne : set_inheritance_type parsExample cnvPARCross.chrom
        cnvPARCross.position cnvPARCross.gender
      ≠ set_inheritance_type parsExample cnvPARCross.chrom
        cnvPARCross.info_END cnvPARCross.gender := by decide
  exact ⟨h.1, (h.2 hne).1⟩

/-- C9: on every genotype the setters can produce (the reference genotype from
the default setter and the deletion or duplication genotypes from a
successful run of the genotype setter) the zygosity predicates collapse:
is_het, is_hom_alt and is_not_ref agree and hold exactly on a deletion or
duplication, while is_hom_ref and is_not_alt agree and are their negation;
there is no such genotype on which is_het and is_hom_alt disagree. -/
theorem cnv_zygosity_collapse (g : String) (pars : List (Nat × Nat))
    (s t s2 : CNVState)
    (hg : g = "REF" ∨ g = "DEL" ∨ g = "DUP")
    (hok : CNV.set_genotype pars s = Except.ok s2) :
    CNV.is_het g = CNV.is_hom_alt g
    ∧ CNV.is_het g = CNV.is_not_ref g
    ∧ CNV.is_hom_ref g = CNV.is_not_alt g
    ∧ CNV.is_hom_ref g = !(CNV.is_het g)
    ∧ (CNV.is_het g = true ↔ (g = "DEL" ∨ g = "DUP"))
    ∧ (s2.genotype = "DEL" ∨ s2.genotype = "DUP")
    ∧ (CNV.set_default_genotype t).genotype = "REF" := by
  refine ⟨rfl, rfl, rfl, ?_, ?_, (set_genotype_ok_fields pars s s2 hok).2.2, rfl⟩
  · rcases hg with rfl | rfl | rfl <;> decide
  · rcases hg with rfl | rfl | rfl <;> decide

/-- Witness for C9 at the deletion genotype and a concrete duplication call. -/
theorem cnv_zygosity_collapse_witness :
    CNV.is_het "DEL" = CNV.is_hom_alt "DEL"
    ∧ CNV.is_hom_ref "DEL" = !(CNV.is_het "DEL")
    ∧ (CNV.set_default_genotype cnvAutosomalDup).genotype = "REF" := by
  have h := cnv_zygosity_collapse "DEL" [] cnvAutosomalDup cnvAutosomalDup
    { cnvAutosomalDup with genotype := "DUP" } (Or.inr (Or.inl rfl)) (by rfl)
  exact ⟨h.1, h.2.2.2.1, h.2.2.2.2.2.2⟩

/-- C10: when every gene reported on a structural variant is present in the
known-genes panel and none of their panel coordinate ranges intersects the
variant range, fix_gene_IDs leaves the record (in particular its gene
annotation) unchanged rather than clearing it; and in general the gene
annotation is rewritten only when at least one reported gene survives the
panel check. -/
theorem fix_gene_IDs_frame (kg : List (String × Nat × Nat)) (s : CNVState)
    (hall : ∀ g ∈ CNV.get_genes s.gene, ∃ gs ge,
      gene_lookup g kg = some (gs, ge)
      ∧ ¬((CNV.get_range s).1 ≤ ge ∧ gs ≤ (CNV.get_range s).2)) :
    CNV.fix_gene_IDs (some kg) s = s
    ∧ ∀ (kg2 : Option (List (String × Nat × Nat))) (s3 : CNVState),
        CNV.fix_gene_IDs kg2 s3 = s3 ∨ CNV.surviving_genes kg2 s3 ≠ [] := by
  constructor
  · have hnil : CNV.surviving_genes (some kg) s = [] := by
      rw [CNV.surviving_genes, List.filter_eq_nil_iff]
      intro a ha
      obtain ⟨gs, ge, hlook, hno⟩ := hall a ha
      simp [hlook, hno]
    rw [CNV.fix_gene_IDs, hnil]
    rfl
  · intro kg2 s3
    by_cases hempty : CNV.surviving_genes kg2 s3 = []
    · left
      rw [CNV.fix_gene_IDs, hempty]
      rfl
    · right
      exact hempty

/-- Witness for C10 at a concrete variant reporting two panel genes whose
coordinates are disjoint from its range. -/
theorem fix_gene_IDs_frame_witness :
    CNV.fix_gene_IDs (some panelDisjoint) cnvStaleGenes = cnvStaleGenes := by
  have hall : ∀ g ∈ CNV.get_genes cnvStaleGenes.gene, ∃ gs ge,
      gene_lookup g panelDisjoint = some (gs, ge)
      ∧ ¬((CNV.get_range cnvStaleGenes).1 ≤ ge
          ∧ gs ≤ (CNV.get_range cnvStaleGenes).2) := by
    have hgenes : CNV.get_genes cnvStaleGenes.gene = ["AAA", "BBB"] := by decide
    rw [hgenes]
    intro g hg
    rcases List.mem_cons.mp hg with rfl | hg2
    · exact ⟨1000, 2000, by decide, by decide⟩
    · rcases List.mem_cons.mp hg2 with rfl | hg3
      · exact ⟨20000000, 21000000, by decide, by decide⟩
      · exact absurd hg3 (List.not_mem_nil g)
  exact (fix_gene_IDs_frame panelDisjoint cnvStaleGenes hall).1

/-- C1 counterexample: routing a hemizygous check appends the entry to the
compound-heterozygous list and leaves the candidates list unchanged, not
the other way around as the claim states. -/
theorem add_variant_routing_counterexample :
    (add_variant_to_appropriate_list (⟨[], []⟩ : InheritanceLists Nat) 0
      "hemizygous" "Monoallelic").candidates = []
    ∧ (add_variant_to_appropriate_list (⟨[], []⟩ : InheritanceLists Nat) 0
      "hemizygous" "Monoallelic").compound_hets
      = [(0, "hemizygous", "Monoallelic")] := by
  exact ⟨rfl, rfl⟩

/-- C1 (amended): for every variant, check tag and inheritance mode, the
routing appends the entry to the candidates list exactly when the check is
single_variant, appends it to the compound-heterozygous list exactly when
the check is compound_het or hemizygous, and leaves both lists unchanged
for any other check value. -/
theorem add_variant_routing_amended {α : Type} (st : InheritanceLists α)
    (v : α) (check inheritance : String) :
    (add_variant_to_appropriate_list st v check inheritance).candidates
      = (if check = "single_variant"
         then st.candidates ++ [(v, check, inheritance)] else st.candidates)
    ∧ (add_variant_to_appropriate_list st v check inheritance).compound_hets
      = (if check = "compound_het" ∨ check = "hemizygous"
         then st.compound_hets ++ [(v, check, inheritance)]
         else st.compound_hets) := by
  rw [add_variant_to_appropriate_list]
  by_cases h1 : check = "compound_het" ∨ check = "hemizygous"
  · have h2 : ¬(check = "single_variant") := by
      rcases h1 with rfl | rfl <;> decide
    rw [if_pos h1, if_pos h1, if_neg h2]
    exact ⟨rfl, rfl⟩
  · rw [if_neg h1, if_neg h1]
    by_cases h2 : check = "single_variant"
    · rw [if_pos h2, if_pos h2]
      exact ⟨rfl, rfl⟩
    · rw [if_neg h2, if_neg h2]
      exact ⟨rfl, rfl⟩

/-- C2 counterexample: for a male child homozygous-alternate on the X
chromosome under X-linked dominant mode, a heterozygous affected mother
yields the rejection outcome, not the single-variant outcome the claim
states her affected status could not influence. -/
theorem check_homozygous_male_counterexample :
    Allosomal.check_homozygous_male "X-linked dominant" Zygosity.Het true
      = Except.ok ("nothing", "variant not compatible with being causal") := by
  rfl

/-- C2 (amended): for a male child homozygous-alternate on the X chromosome
with both parental genotypes present, check_homozygous under X-linked
dominant mode returns the single-variant outcome with reason male X chrom
inherited from het mother or hom affected mother exactly in the claimed
mother configurations corrected on affected status: a heterozygous mother
who is not affected, or a homozygous-alternate mother who is affected. -/
theorem check_homozygous_male_amended (mom : Zygosity) (aff : Bool)
    (h : (mom = Zygosity.Het ∧ aff = false)
      ∨ (mom = Zygosity.HomAlt ∧ aff = true)) :
    Allosomal.check_homozygous_male "X-linked dominant" mom aff
      = Except.ok ("single_variant",
        "male X chrom inherited from het mother or hom affected mother") := by
  rcases h with ⟨rfl, rfl⟩ | ⟨rfl, rfl⟩ <;> rfl

/-- Witness for the amended C2 at a homozygous-alternate affected mother. -/
theorem check_homozygous_male_amended_witness :
    Allosomal.check_homozygous_male "X-linked dominant" Zygosity.HomAlt true
      = Except.ok ("single_variant",
        "male X chrom inherited from het mother or hom affected mother") :=
  check_homozygous_male_amended Zygosity.HomAlt true (Or.inr ⟨rfl, rfl⟩)

/-- C7: the intragenic-duplication check on the gene with coordinates 5000 to
6000 accepts the duplication 5200 to 5800 strictly inside the gene and the
one-sided protrusions 5200 to 6200 and 4800 to 5800, rejects the
duplication 4800 to 6200 surrounding the gene and the duplication exactly
matching the gene span, accepts under X-linked dominant mode as under
Monoallelic, and returns false for every deletion and for every other
inheritance mode. -/
theorem passes_intragenic_dup_spec (s e gs ge : Nat) (inh inh2 : String)
    (hinh : inh ≠ "Monoallelic" ∧ inh ≠ "X-linked dominant") :
    CNVInheritance.passes_intragenic_dup 5200 5800 "DUP" "Monoallelic" 5000 6000 = true
    ∧ CNVInheritance.passes_intragenic_dup 4800 6200 "DUP" "Monoallelic" 5000 6000 = false
    ∧ CNVInheritance.passes_intragenic_dup 5000 6000 "DUP" "Monoallelic" 5000 6000 = false
    ∧ CNVInheritance.passes_intragenic_dup 5200 6200 "DUP" "Monoallelic" 5000 6000 = true
    ∧ CNVInheritance.passes_intragenic_dup 4800 5800 "DUP" "Monoallelic" 5000 6000 = true
    ∧ CNVInheritance.passes_intragenic_dup 5200 5800 "DUP" "X-linked dominant" 5000 6000 = true
    ∧ CNVInheritance.passes_intragenic_dup s e "DEL" inh2 gs ge = false
    ∧ CNVInheritance.passes_intragenic_dup s e "DUP" inh gs ge = false := by
  obtain ⟨hm, hx⟩ := hinh
  refine ⟨by decide, by decide, by decide, by decide, by decide, by decide, ?_, ?_⟩
  · rw [CNVInheritance.passes_intragenic_dup]
    by_cases h1 : inh2 = "Monoallelic" ∨ inh2 = "X-linked dominant"
    · rw [if_neg (not_not_intro h1),
        if_pos (show ("DEL" : String) ≠ "DUP" by decide)]
    · rw [if_pos h1]
  · rw [CNVInheritance.passes_intragenic_dup,
      if_pos (show ¬(inh = "Monoallelic" ∨ inh = "X-linked dominant") from
        fun hor => hor.elim hm hx)]

/-- Witness for C7 at a deletion and at the Biallelic mode. -/
theorem passes_intragenic_dup_spec_witness :
    CNVInheritance.passes_intragenic_dup 5200 5800 "DUP" "Monoallelic" 5000 6000 = true
    ∧ CNVInheritance.passes_intragenic_dup 1 2 "DEL" "Monoallelic" 3 4 = false
    ∧ CNVInheritance.passes_intragenic_dup 1 2 "DUP" "Biallelic" 3 4 = false := by
  have h := passes_intragenic_dup_spec 1 2 3 4 "Biallelic" "Monoallelic"
    ⟨by decide, by decide⟩
  exact ⟨h.1, h.2.2.2.2.2.2.1, h.2.2.2.2.2.2.2⟩

/-- C8: the reciprocal-overlap check accepts two identical intervals 1000 to
2000, accepts the interval 1000 to 1010 against 1000 to 2000 (one percent
overlap), rejects 1000 to 1009 against 1000 to 2000 (just under one
percent), and for every pair of intervals is unchanged when the roles of
the two intervals are exchanged. -/
theorem has_enough_overlap_spec (sa ea sb eb : Int) :
    CNVInheritance.has_enough_overlap 1000 2000 1000 2000 = true
    ∧ CNVInheritance.has_enough_overlap 1000 1010 1000 2000 = true
    ∧ CNVInheritance.has_enough_overlap 1000 1009 1000 2000 = false
    ∧ CNVInheritance.has_enough_overlap sa ea sb eb
      = CNVInheritance.has_enough_overlap sb eb sa ea := by
  refine ⟨by decide, by decide, by decide, ?_⟩
  simp only [CNVInheritance.has_enough_overlap]
  rw [max_comm sb sa, min_comm eb ea, Bool.and_comm]
